import Mathlib

/-!
Verification of the recursive DNS resolver in resolve.py.

The resolver walks the DNS delegation hierarchy starting from thirteen
hard-coded root servers, chasing CNAME aliases and extracting referrals
from the additional and authority sections of responses.  The external
wire-protocol library is modelled as an oracle (`Network`); a failed UDP
query is the oracle returning `none`, which the source tests with
`if response is None: continue`.  Python exceptions and the fuel needed
to make the recursion total are tracked by `PyResult`.
-/

/-- One resource record.  `rdtype` is the wire type code, `text` the
string form (the address for an A record, the target text for a CNAME),
`target` the alias target used by the CNAME chase, `preference` and
`exchange` the MX fields. -/
structure Rdata where
  rdtype : Nat
  text : String
  target : String
  preference : Nat
  exchange : String
deriving DecidableEq

/-- A resource-record set as parsed by the wire library: an owner name, a
set-level type code, and a nonempty sequence of records.  The source
indexes `record[0]`, which is total because parsed rrsets are nonempty,
so the first record is kept apart from the rest. -/
structure RRset where
  name : String
  rdtype : Nat
  first : Rdata
  rest : List Rdata
deriving DecidableEq

/-- Iteration order of a resource-record set. -/
def RRset.toList (a : RRset) : List Rdata := a.first :: a.rest

/-- A parsed DNS response: the three sections used by the source. -/
structure Response where
  answer : List RRset
  authority : List RRset
  additional : List RRset
deriving DecidableEq

/-- Outcome of running a piece of the Python program: `ret` is a normal
return, `raised` a propagating Python exception, and `outOfFuel` the
model artifact for recursion deeper than the supplied fuel. -/
inductive PyResult (α : Type) where
  | outOfFuel
  | raised
  | ret (val : α)
deriving DecidableEq

/-- The wire-protocol oracle: `net target qtype server` is the parsed
response of one UDP query, or `none` on timeout or transport failure. -/
abbrev Network := String → Nat → String → Option Response

/-- A sub-resolution function: what a recursive call to `lookup` at the
enclosing fuel computes for a target name and query type. -/
abbrev Resolver := String → Nat → PyResult (Option Response)

def rdatatype.A : Nat := 1
def rdatatype.CNAME : Nat := 5
def rdatatype.SOA : Nat := 6
def rdatatype.MX : Nat := 15
def rdatatype.AAAA : Nat := 28

/-- The thirteen hard-coded root server addresses, in source order. -/
def ROOT_SERVERS : List String :=
  ["198.41.0.4",
   "199.9.14.201",
   "192.33.4.12",
   "199.7.91.13",
   "192.203.230.10",
   "192.5.5.241",
   "192.112.36.4",
   "198.97.190.53",
   "192.36.148.17",
   "192.58.128.30",
   "193.0.14.129",
   "199.7.83.42",
   "202.12.27.33"]

/-- One DNS label is nonempty and at most 63 characters long. -/
def validLabel (l : List Char) : Bool :=
  decide (0 < l.length) && decide (l.length ≤ 63)

/-- Split a character list at every dot. -/
def splitLabels : List Char → List (List Char)
  | [] => [[]]
  | c :: cs =>
    if c = '.' then [] :: splitLabels cs
    else
      match splitLabels cs with
      | [] => [[c]]
      | l :: ls => (c :: l) :: ls

/-- Modelled from the spec: the external name constructor
(dns.name.from_text, outside this repository) rejects syntactically
invalid domain names before any query is issued (the MalformedName
failure) and normalizes valid names to trailing-dot form. -/
def from_text (s : String) : Option String :=
  if s = "." then some "."
  else
    let cs := if s.data.getLast? = some '.' then s.data.dropLast else s.data
    if (splitLabels cs).all validLabel then some (String.mk (cs ++ ['.'])) else none

/-- Lines 118-122 of the source: collect, from each additional-section
rrset whose first record has type A, the string of that first record. -/
def additionalAddrs (r : Response) : List String :=
  r.additional.filterMap
    (fun rr => if rr.first.rdtype = rdatatype.A then some rr.first.text else none)

/-- Lines 133-135 of the source: from a nameserver sub-resolution,
collect the string of the first record of each answer rrset whose
set-level type is A. -/
def nsAddrs (r : Response) : List String :=
  r.answer.filterMap
    (fun rr => if rr.rdtype = rdatatype.A then some rr.first.text else none)

/-- Lines 126-135 of the source: scan the authority section; for every
rrset whose first record is not SOA, build a name from its first record
text (raising on a malformed name) and run a fresh sub-resolution for
type A, appending the collected addresses to the candidate list. -/
def authorityScan (sub : Resolver) : List RRset → List String → PyResult (List String)
  | [], servers => PyResult.ret servers
  | rr :: more, servers =>
    if rr.first.rdtype = rdatatype.SOA then authorityScan sub more servers
    else
      match from_text rr.first.text with
      | none => PyResult.raised
      | some n =>
        match sub n rdatatype.A with
        | PyResult.outOfFuel => PyResult.outOfFuel
        | PyResult.raised => PyResult.raised
        | PyResult.ret none => authorityScan sub more servers
        | PyResult.ret (some r) => authorityScan sub more (servers ++ nsAddrs r)

/-- Lines 105-110 of the source, inner loop: scan the records of one
answer rrset; each CNAME record overwrites cname_response with the
result of a fresh sub-resolution of its target for the original type. -/
def chaseRecords (sub : Resolver) (qtype : Nat) :
    List Rdata → Option Response → PyResult (Option Response)
  | [], acc => PyResult.ret acc
  | r :: more, acc =>
    if r.rdtype = rdatatype.CNAME then
      match sub r.target qtype with
      | PyResult.outOfFuel => PyResult.outOfFuel
      | PyResult.raised => PyResult.raised
      | PyResult.ret res => chaseRecords sub qtype more res
    else chaseRecords sub qtype more acc

/-- Lines 105-110 of the source, outer loop over the answer rrsets. -/
def chaseAnswers (sub : Resolver) (qtype : Nat) :
    List RRset → Option Response → PyResult (Option Response)
  | [], acc => PyResult.ret acc
  | a :: more, acc =>
    match chaseRecords sub qtype a.toList acc with
    | PyResult.outOfFuel => PyResult.outOfFuel
    | PyResult.raised => PyResult.raised
    | PyResult.ret acc2 => chaseAnswers sub qtype more acc2

/-- Lines 92-140 of the source: the candidate-walking loop of `lookup`.
The fuel bounds the number of loop iterations (one query per iteration);
`sub` is the recursive `lookup` call visible to this invocation, and the
final argument is the response variable left over from the previous
iteration, returned when the candidate list is exhausted. -/
def lookupLoop (net : Network) (sub : Resolver) (target : String) (qtype : Nat) :
    Nat → List String → Option Response → PyResult (Option Response)
  | _, [], last => PyResult.ret last
  | 0, _ :: _, _ => PyResult.outOfFuel
  | fuel + 1, server :: rest, _ =>
    match net target qtype server with
    | none => lookupLoop net sub target qtype fuel rest none
    | some resp =>
      if resp.answer.isEmpty then
        let ns := additionalAddrs resp
        if ns.isEmpty then
          match authorityScan sub resp.authority rest with
          | PyResult.outOfFuel => PyResult.outOfFuel
          | PyResult.raised => PyResult.raised
          | PyResult.ret servers2 => lookupLoop net sub target qtype fuel servers2 (some resp)
        else lookupLoop net sub target qtype fuel ns (some resp)
      else
        match chaseAnswers sub qtype resp.answer none with
        | PyResult.outOfFuel => PyResult.outOfFuel
        | PyResult.raised => PyResult.raised
        | PyResult.ret (some c) =>
          PyResult.ret (some { resp with answer := resp.answer ++ c.answer })
        | PyResult.ret none => PyResult.ret (some resp)

/-- Lines 83-140 of the source: `lookup` seeds the candidate list with
the root servers and runs the loop; recursive calls run at one unit less
fuel. -/
def lookup (net : Network) : Nat → String → Nat → PyResult (Option Response)
  | 0, _, _ => PyResult.outOfFuel
  | fuel + 1, target, qtype =>
    lookupLoop net (fun t q => lookup net fuel t q) target qtype fuel ROOT_SERVERS none

/-- Record entries of the final result structure. -/
inductive Entry where
  | cname (name aliasOf : String)
  | addr (name address : String)
  | mx (name : String) (preference : Nat) (exchange : String)
deriving DecidableEq

/-- Lines 44-47 of the source: the CNAME projection appends an entry for
EVERY record of every answer rrset, with no type filter.  The second
field of each entry is the raw input name. -/
def cnameEntries (aliasOf : String) (anss : List RRset) : List Entry :=
  anss.foldr (fun a acc => (a.toList.map (fun r => Entry.cname r.text aliasOf)) ++ acc) []

/-- Lines 50-55 of the source: records with type code 1 project to
address entries carrying the rrset owner name. -/
def aEntries (anss : List RRset) : List Entry :=
  anss.foldr
    (fun a acc =>
      (a.toList.filterMap
        (fun r => if r.rdtype = 1 then some (Entry.addr a.name r.text) else none)) ++ acc) []

/-- Lines 58-63 of the source: records with type code 28 project to
address entries carrying the rrset owner name. -/
def aaaaEntries (anss : List RRset) : List Entry :=
  anss.foldr
    (fun a acc =>
      (a.toList.filterMap
        (fun r => if r.rdtype = 28 then some (Entry.addr a.name r.text) else none)) ++ acc) []

/-- Lines 66-73 of the source: records with type code 15 project to
mail-exchange entries. -/
def mxEntries (anss : List RRset) : List Entry :=
  anss.foldr
    (fun a acc =>
      (a.toList.filterMap
        (fun r => if r.rdtype = 15 then some (Entry.mx a.name r.preference r.exchange) else none)) ++ acc) []

/-- Accessing the answer attribute of a lookup result: when the loop
exhausted its candidates after a final transport failure the result is
Python None, and the attribute access raises. -/
def getResp : PyResult (Option Response) → PyResult Response
  | PyResult.outOfFuel => PyResult.outOfFuel
  | PyResult.raised => PyResult.raised
  | PyResult.ret none => PyResult.raised
  | PyResult.ret (some r) => PyResult.ret r

/-- Lines 35-80 of the source: build the name (raising on a malformed
input), run the four lookups, and assemble the result dictionary in
insertion order CNAME, A, AAAA, MX. -/
def collect_results (net : Network) (fuel : Nat) (name : String) :
    PyResult (List (String × List Entry)) :=
  match from_text name with
  | none => PyResult.raised
  | some target =>
    match getResp (lookup net fuel target rdatatype.CNAME) with
    | PyResult.outOfFuel => PyResult.outOfFuel
    | PyResult.raised => PyResult.raised
    | PyResult.ret rc =>
      match getResp (lookup net fuel target rdatatype.A) with
      | PyResult.outOfFuel => PyResult.outOfFuel
      | PyResult.raised => PyResult.raised
      | PyResult.ret ra =>
        match getResp (lookup net fuel target rdatatype.AAAA) with
        | PyResult.outOfFuel => PyResult.outOfFuel
        | PyResult.raised => PyResult.raised
        | PyResult.ret r6 =>
          match getResp (lookup net fuel target rdatatype.MX) with
          | PyResult.outOfFuel => PyResult.outOfFuel
          | PyResult.raised => PyResult.raised
          | PyResult.ret rmx =>
            PyResult.ret
              [("CNAME", cnameEntries name rc.answer),
               ("A", aEntries ra.answer),
               ("AAAA", aaaaEntries r6.answer),
               ("MX", mxEntries rmx.answer)]

/-! ## Spec-side and characterization definitions -/

/-- Stated from the spec for comparison with `additionalAddrs`: collect
the address string of EVERY ADDRESS-type record of the additional
section, not only the first record of each rrset. -/
def specAdditionalAddrs (r : Response) : List String :=
  r.additional.foldr
    (fun rr acc =>
      (rr.toList.filterMap
        (fun rd => if rd.rdtype = rdatatype.A then some rd.text else none)) ++ acc) []

/-- Stated from the spec for comparison with `nsAddrs`: collect EVERY
resulting address of a nameserver sub-resolution, that is every record
of every ADDRESS-type answer rrset. -/
def specNSAddrs (r : Response) : List String :=
  r.answer.foldr
    (fun rr acc =>
      (if rr.rdtype = rdatatype.A then rr.toList.map (fun rd => rd.text) else []) ++ acc) []

/-- The addresses the authority scan contributes, as a function of the
sub-resolver: per non-SOA authority rrset, the addresses collected from
the sub-resolution of its first record, in order. -/
def gatherNS (sub : Resolver) : List RRset → List String
  | [] => []
  | rr :: more =>
    (if rr.first.rdtype = rdatatype.SOA then []
     else
       match from_text rr.first.text with
       | none => []
       | some n =>
         match sub n rdatatype.A with
         | PyResult.ret (some r) => nsAddrs r
         | _ => []) ++ gatherNS sub more

/-- The value of the response variable after querying each listed server
in turn: each query overwrites it, a failed query with Python None. -/
def lastSeenResp (net : Network) (target : String) (qtype : Nat)
    (servers : List String) (last : Option Response) : Option Response :=
  servers.foldl (fun _ s => net target qtype s) last

/-- A server that never provides an answer nor any referral data for the
given query: its response, if any, has an empty answer section, no
additional-section address, and only SOA-headed authority rrsets. -/
def contribFree (net : Network) (target : String) (qtype : Nat) (s : String) : Prop :=
  ∀ r, net target qtype s = some r →
    r.answer = [] ∧ additionalAddrs r = [] ∧
      ∀ rr ∈ r.authority, rr.first.rdtype = rdatatype.SOA

/-- The CNAME targets of one record list, in iteration order. -/
def cnameTargets1 (rs : List Rdata) : List String :=
  rs.filterMap (fun r => if r.rdtype = rdatatype.CNAME then some r.target else none)

/-- The CNAME targets of an answer section, in iteration order. -/
def cnameTargets (anss : List RRset) : List String :=
  anss.foldr (fun a acc => cnameTargets1 a.toList ++ acc) []

/-- The answer records a chase result contributes to the merge: none at
all when the chase value is Python None. -/
def optAnswer : Option Response → List RRset
  | some c => c.answer
  | none => []

/-! ## Concrete inputs used by counterexamples and witnesses -/

/-- A network on which every query fails. -/
def net0 : Network := fun _ _ _ => none

/-- A trivial sub-resolver. -/
def sub0 : Resolver := fun _ _ => PyResult.ret none

def cn1 : Rdata := { rdtype := 5, text := "c1.", target := "c1.", preference := 0, exchange := "" }

def cn2 : Rdata := { rdtype := 5, text := "c2.", target := "c2.", preference := 0, exchange := "" }

def rrX : RRset := { name := "x.", rdtype := 5, first := cn1, rest := [cn2] }

def respX : Response := { answer := [rrX], authority := [], additional := [] }

def rrC1 : RRset :=
  { name := "c1.", rdtype := 1,
    first := { rdtype := 1, text := "1.1.1.1", target := "", preference := 0, exchange := "" },
    rest := [] }

def respC1 : Response := { answer := [rrC1], authority := [], additional := [] }

def rrC2 : RRset :=
  { name := "c2.", rdtype := 1,
    first := { rdtype := 1, text := "2.2.2.2", target := "", preference := 0, exchange := "" },
    rest := [] }

def respC2 : Response := { answer := [rrC2], authority := [], additional := [] }

/-- A network with an answer for "x." holding two CNAME records whose
targets resolve to distinct addresses. -/
def exNet1 : Network := fun t q s =>
  if t = "x." && q == 1 && s = "198.41.0.4" then some respX
  else if t = "c1." && q == 1 && s = "198.41.0.4" then some respC1
  else if t = "c2." && q == 1 && s = "198.41.0.4" then some respC2
  else none

/-- An additional-section rrset holding two addresses for one name. -/
def addRR2 : RRset :=
  { name := "ns.x.", rdtype := 1,
    first := { rdtype := 1, text := "10.0.0.1", target := "", preference := 0, exchange := "" },
    rest := [{ rdtype := 1, text := "10.0.0.2", target := "", preference := 0, exchange := "" }] }

/-- An authority-section rrset naming a different server. -/
def authRR2 : RRset :=
  { name := "x.", rdtype := 2,
    first := { rdtype := 2, text := "other.ns.x.", target := "", preference := 0, exchange := "" },
    rest := [] }

/-- A referral whose additional section has two server addresses in one
rrset and whose authority section names a different server. -/
def ref2 : Response := { answer := [], authority := [authRR2], additional := [addRR2] }

def ansRR2 : RRset :=
  { name := "x.", rdtype := 1,
    first := { rdtype := 1, text := "5.5.5.5", target := "", preference := 0, exchange := "" },
    rest := [] }

def ans2 : Response := { answer := [ansRR2], authority := [], additional := [] }

/-- A network where the first root returns the referral `ref2`, the
first referred address fails, and the second referred address would
answer. -/
def exNet2 : Network := fun t q s =>
  if t = "x." && q == 1 && s = "198.41.0.4" then some ref2
  else if t = "x." && q == 1 && s = "10.0.0.2" then some ans2
  else none

/-- An authority rrset delegating to nameserver ns.x. -/
def nsRR4 : RRset :=
  { name := "x.", rdtype := 2,
    first := { rdtype := 2, text := "ns.x.", target := "", preference := 0, exchange := "" },
    rest := [] }

def ref4 : Response := { answer := [], authority := [nsRR4], additional := [] }

/-- The nameserver resolves to an answer rrset holding two addresses. -/
def aRR4 : RRset :=
  { name := "ns.x.", rdtype := 1,
    first := { rdtype := 1, text := "7.7.7.1", target := "", preference := 0, exchange := "" },
    rest := [{ rdtype := 1, text := "7.7.7.2", target := "", preference := 0, exchange := "" }] }

def nsAns4 : Response := { answer := [aRR4], authority := [], additional := [] }

def exNet4 : Network := fun t q s =>
  if t = "ns.x." && q == 1 && s = "198.41.0.4" then some nsAns4
  else none

/-- For the CNAME query the first root answers with a type-1 record; the
other three queries answer with records of their own type codes. -/
def resp65 : Response :=
  { answer := [{ name := "x.", rdtype := 1,
                 first := { rdtype := 1, text := "9.9.9.9", target := "", preference := 0, exchange := "" },
                 rest := [] }],
    authority := [], additional := [] }

def resp61 : Response :=
  { answer := [{ name := "x.", rdtype := 1,
                 first := { rdtype := 1, text := "1.2.3.4", target := "", preference := 0, exchange := "" },
                 rest := [] }],
    authority := [], additional := [] }

def resp628 : Response :=
  { answer := [{ name := "x.", rdtype := 28,
                 first := { rdtype := 28, text := "::1", target := "", preference := 0, exchange := "" },
                 rest := [] }],
    authority := [], additional := [] }

def resp615 : Response :=
  { answer := [{ name := "x.", rdtype := 15,
                 first := { rdtype := 15, text := "10 mail.x.", target := "", preference := 10, exchange := "mail.x." },
                 rest := [] }],
    authority := [], additional := [] }

def exNet6 : Network := fun t q s =>
  if t = "x." && s = "198.41.0.4" then
    (if q == 5 then some resp65
     else if q == 1 then some resp61
     else if q == 28 then some resp628
     else if q == 15 then some resp615
     else none)
  else none

/-- A network where the first root refers to nameserver ns.x and the
nameserver resolves to the two-address rrset `aRR4`. -/
def w4net : Network := fun t q s =>
  if t = "x." && q == 1 && s = "198.41.0.4" then some ref4
  else if t = "ns.x." && q == 1 && s = "198.41.0.4" then some nsAns4
  else none

/-! ## Helper lemmas -/

theorem authorityScan_soa (sub : Resolver) :
    ∀ (auths : List RRset) (servers : List String),
      (∀ rr ∈ auths, rr.first.rdtype = rdatatype.SOA) →
      authorityScan sub auths servers = PyResult.ret servers := by
  intro auths
  induction auths with
  | nil => intro servers _; rfl
  | cons rr more ih =>
    intro servers h
    have h1 : rr.first.rdtype = rdatatype.SOA := h rr (by simp)
    simp only [authorityScan, h1, if_pos]
    exact ih servers (fun r hr => h r (by simp [hr]))

theorem lookupLoop_contribFree (net : Network) (sub : Resolver) (t : String) (q : Nat) :
    ∀ (servers : List String) (fuel : Nat) (last : Option Response),
      (∀ s ∈ servers, contribFree net t q s) → servers.length ≤ fuel →
      lookupLoop net sub t q fuel servers last =
        PyResult.ret (lastSeenResp net t q servers last) := by
  intro servers
  induction servers with
  | nil => intro fuel last _ _; cases fuel <;> simp [lookupLoop, lastSeenResp]
  | cons s rest ih =>
    intro fuel last hcf hlen
    match fuel with
    | 0 => simp at hlen
    | fuel + 1 =>
      cases hnet : net t q s with
      | none =>
        simp only [lookupLoop, hnet]
        rw [ih fuel none (fun s2 hs2 => hcf s2 (by simp [hs2])) (by simpa using Nat.le_of_succ_le_succ hlen)]
        simp [lastSeenResp, hnet]
      | some r =>
        obtain ⟨hans, hadd, hsoa⟩ := hcf s (by simp) r hnet
        simp only [lookupLoop, hnet, hans, List.isEmpty_nil, if_pos, hadd,
          authorityScan_soa sub r.authority rest hsoa]
        rw [ih fuel (some r) (fun s2 hs2 => hcf s2 (by simp [hs2])) (by simpa using Nat.le_of_succ_le_succ hlen)]
        simp [lastSeenResp, hnet]

theorem lastSeenResp_answer_empty (net : Network) (t : String) (q : Nat) :
    ∀ (servers : List String) (last : Option Response),
      (∀ s ∈ servers, contribFree net t q s) →
      (∀ x, last = some x → x.answer = []) →
      ∀ x, lastSeenResp net t q servers last = some x → x.answer = [] := by
  intro servers
  induction servers with
  | nil => intro last _ hl x hx; exact hl x hx
  | cons s rest ih =>
    intro last hcf hl x hx
    refine ih (net t q s) (fun s2 hs2 => hcf s2 (by simp [hs2])) ?_ x ?_
    · intro y hy
      exact (hcf s (by simp) y hy).1
    · simpa [lastSeenResp] using hx

/-! ## Claim C3 -/

/-- Claim C3: when the wire query to the current candidate fails
(modelled as the oracle returning none, which the source tests with
`if response is None: continue`), `lookup` skips to the next candidate:
the failure is not surfaced, the failed server is removed from the list
and never retried, and the loop continues with the remaining
candidates. -/
theorem C3_transport_failure_skips (net : Network) (sub : Resolver)
    (t : String) (q fuel : Nat) (s : String) (rest : List String) (last : Option Response)
    (h : net t q s = none) :
    lookupLoop net sub t q (fuel + 1) (s :: rest) last =
      lookupLoop net sub t q fuel rest none := by
  simp only [lookupLoop, h]

/-- Witness for claim C3 at a concrete failing server. -/
theorem C3_witness :
    net0 "x." 1 "198.41.0.4" = none ∧
    lookupLoop net0 sub0 "x." 1 1 ["198.41.0.4"] none =
      lookupLoop net0 sub0 "x." 1 0 [] none :=
  ⟨rfl, C3_transport_failure_skips net0 sub0 "x." 1 0 "198.41.0.4" [] none rfl⟩

/-! ## Claim C2 -/

/-- Claim C2 (amended): on a response with an empty answer section, the
next candidate list is exactly the list collected by `additionalAddrs`
(the first-record address string of each additional-section rrset whose
first record has type A) whenever that list is nonempty; it wholly
replaces the remaining candidates, and the authority section plays no
part in it. -/
theorem C2_additional_replaces (net : Network) (sub : Resolver)
    (t : String) (q fuel : Nat) (s : String) (rest : List String) (last : Option Response)
    (resp : Response) (hnet : net t q s = some resp) (hans : resp.answer = [])
    (hadd : additionalAddrs resp ≠ []) :
    lookupLoop net sub t q (fuel + 1) (s :: rest) last =
      lookupLoop net sub t q fuel (additionalAddrs resp) (some resp) ∧
    ∀ r2 : Response, r2.additional = resp.additional →
      additionalAddrs r2 = additionalAddrs resp := by
  constructor
  · simp only [lookupLoop, hnet, hans, List.isEmpty_nil, if_pos]
    rw [if_neg (by simpa [List.isEmpty_iff] using hadd)]
  · intro r2 h2
    simp [additionalAddrs, h2]

/-- Witness for the amended claim C2 at the concrete referral `ref2`. -/
theorem C2_witness :
    exNet2 "x." 1 "198.41.0.4" = some ref2 ∧ ref2.answer = [] ∧
    additionalAddrs ref2 ≠ [] ∧
    (lookupLoop exNet2 sub0 "x." 1 3 ("198.41.0.4" :: ["199.9.14.201"]) none =
       lookupLoop exNet2 sub0 "x." 1 2 (additionalAddrs ref2) (some ref2) ∧
     ∀ r2 : Response, r2.additional = ref2.additional →
       additionalAddrs r2 = additionalAddrs ref2) :=
  ⟨by decide, rfl, by decide,
   C2_additional_replaces exNet2 sub0 "x." 1 2 "198.41.0.4" ["199.9.14.201"] none ref2
     (by decide) rfl (by decide)⟩

/-- Counterexample to claim C2 as stated: the additional section of
`ref2` holds the two address records 10.0.0.1 and 10.0.0.2 in one rrset,
but the source collects only the first record of the rrset, so the
candidate list is just 10.0.0.1; the run then fails on 10.0.0.1 and
returns Python None without ever querying 10.0.0.2, whose answer the
claimed candidate list would have produced. -/
theorem C2_counterexample :
    additionalAddrs ref2 = ["10.0.0.1"] ∧
    specAdditionalAddrs ref2 = ["10.0.0.1", "10.0.0.2"] ∧
    lookup exNet2 5 "x." 1 = PyResult.ret none ∧
    exNet2 "x." 1 "10.0.0.2" = some ans2 ∧ ans2.answer ≠ [] := by decide

/-! ## Claim C5 -/

/-- Claim C5: when the candidate list runs out without any response
having a non-empty answer section, the loop terminates normally and
returns the last-seen response, which may be Python None or have an
empty answer section, and no error is raised. -/
theorem C5_exhaustion_returns_last (net : Network) (sub : Resolver) (t : String) (q : Nat)
    (servers : List String) (fuel : Nat) (last : Option Response)
    (hcf : ∀ s ∈ servers, contribFree net t q s)
    (hfuel : servers.length ≤ fuel)
    (hlast : ∀ x, last = some x → x.answer = []) :
    lookupLoop net sub t q fuel servers last =
      PyResult.ret (lastSeenResp net t q servers last) ∧
    ∀ x, lastSeenResp net t q servers last = some x → x.answer = [] :=
  ⟨lookupLoop_contribFree net sub t q servers fuel last hcf hfuel,
   lastSeenResp_answer_empty net t q servers last hcf hlast⟩

/-- Witness for claim C5 on a network where every query fails. -/
theorem C5_witness :
    (∀ s ∈ ["9.9.9.9"], contribFree net0 "x." 1 s) ∧
    ([("9.9.9.9" : String)].length ≤ 1) ∧
    (lookupLoop net0 sub0 "x." 1 1 ["9.9.9.9"] none =
       PyResult.ret (lastSeenResp net0 "x." 1 ["9.9.9.9"] none) ∧
     ∀ x, lastSeenResp net0 "x." 1 ["9.9.9.9"] none = some x → x.answer = []) :=
  ⟨fun _ _ r hr => by simp [net0] at hr, by decide,
   C5_exhaustion_returns_last net0 sub0 "x." 1 ["9.9.9.9"] 1 none
     (fun _ _ r hr => by simp [net0] at hr) (by decide) (fun x hx => by cases hx)⟩

/-! ## Claim C7 -/

/-- Claim C7: every invocation of `lookup` seeds its candidate list with
the thirteen-entry root server list in its given order and pops from the
front; when no response ever contributes new candidates, loop fuel 13,
that is at most thirteen queries (the loop spends exactly one unit of
fuel and one query per iteration), suffices for normal termination. -/
theorem C7_root_seed_and_bound (net : Network) (t : String) (q fuel : Nat)
    (hcf : ∀ s, contribFree net t q s) (hfuel : 13 ≤ fuel) :
    ROOT_SERVERS.length = 13 ∧
    lookup net (fuel + 1) t q =
      lookupLoop net (fun t2 q2 => lookup net fuel t2 q2) t q fuel ROOT_SERVERS none ∧
    lookup net (fuel + 1) t q = PyResult.ret (lastSeenResp net t q ROOT_SERVERS none) := by
  refine ⟨rfl, rfl, ?_⟩
  show lookupLoop net (fun t2 q2 => lookup net fuel t2 q2) t q fuel ROOT_SERVERS none =
    PyResult.ret (lastSeenResp net t q ROOT_SERVERS none)
  exact lookupLoop_contribFree net _ t q ROOT_SERVERS fuel none (fun s _ => hcf s)
    (by simpa [ROOT_SERVERS] using hfuel)

/-- Witness for claim C7 on a network where every query fails. -/
theorem C7_witness :
    (∀ s, contribFree net0 "x." 1 s) ∧ (13 ≤ 13) ∧
    (ROOT_SERVERS.length = 13 ∧
     lookup net0 14 "x." 1 =
       lookupLoop net0 (fun t2 q2 => lookup net0 13 t2 q2) "x." 1 13 ROOT_SERVERS none ∧
     lookup net0 14 "x." 1 = PyResult.ret (lastSeenResp net0 "x." 1 ROOT_SERVERS none)) :=
  ⟨fun _ r hr => by simp [net0] at hr, by decide,
   C7_root_seed_and_bound net0 "x." 1 13 (fun _ r hr => by simp [net0] at hr) (by decide)⟩

/-! ## Claim C8 -/

/-- Claim C8: an input string rejected by name construction makes
`collect_results` fail at once with the raised error, for every network
and fuel, hence before any lookup issues any query and with no partial
result state. -/
theorem C8_malformed_name_fails_fast (net : Network) (fuel : Nat) (name : String)
    (h : from_text name = none) :
    collect_results net fuel name = PyResult.raised := by
  simp [collect_results, h]

/-- Witness for claim C8 on a name with an empty label. -/
theorem C8_witness :
    from_text "a..b" = none ∧ collect_results net0 0 "a..b" = PyResult.raised :=
  ⟨by decide, C8_malformed_name_fails_fast net0 0 "a..b" (by decide)⟩

/-! ## Claim C9 -/

/-- Claim C9: whenever `collect_results` returns, the returned structure
has exactly the four keys CNAME, A, AAAA and MX, in that order, each
bound to a list of record entries. -/
theorem C9_result_keys (net : Network) (fuel : Nat) (name : String)
    (d : List (String × List Entry)) (h : collect_results net fuel name = PyResult.ret d) :
    d.map Prod.fst = ["CNAME", "A", "AAAA", "MX"] ∧
    ∃ l1 l2 l3 l4, d = [("CNAME", l1), ("A", l2), ("AAAA", l3), ("MX", l4)] := by
  unfold collect_results at h
  repeat' split at h
  all_goals cases h
  exact ⟨rfl, _, _, _, _, rfl⟩

/-- Witness for claim C9 at a concrete network. -/
theorem C9_witness :
    collect_results exNet6 3 "x" = PyResult.ret
      [("CNAME", [Entry.cname "9.9.9.9" "x"]),
       ("A", [Entry.addr "x." "1.2.3.4"]),
       ("AAAA", [Entry.addr "x." "::1"]),
       ("MX", [Entry.mx "x." 10 "mail.x."])] ∧
    (List.map Prod.fst
       [("CNAME", [Entry.cname "9.9.9.9" "x"]),
        ("A", [Entry.addr "x." "1.2.3.4"]),
        ("AAAA", [Entry.addr "x." "::1"]),
        ("MX", [Entry.mx "x." 10 "mail.x."])] = ["CNAME", "A", "AAAA", "MX"] ∧
     ∃ l1 l2 l3 l4,
       [("CNAME", [Entry.cname "9.9.9.9" "x"]),
        ("A", [Entry.addr "x." "1.2.3.4"]),
        ("AAAA", [Entry.addr "x." "::1"]),
        ("MX", [Entry.mx "x." 10 "mail.x."])] =
         [("CNAME", l1), ("A", l2), ("AAAA", l3), ("MX", l4)]) :=
  ⟨by decide, C9_result_keys exNet6 3 "x" _ (by decide)⟩

/-! ## Claim C10 -/

/-- Claim C10: referral extraction reads only the first record of each
resource-record set.  Replacing the trailing records of every
additional-section rrset, of every answer rrset of a nameserver
sub-resolution, or of every authority-section rrset changes nothing:
only record index 0 is tested and collected. -/
theorem C10_first_record_only (r : Response) (f : RRset → List Rdata) :
    additionalAddrs
        { r with additional := r.additional.map (fun rr => { rr with rest := f rr }) } =
      additionalAddrs r ∧
    nsAddrs { r with answer := r.answer.map (fun rr => { rr with rest := f rr }) } =
      nsAddrs r ∧
    ∀ (sub : Resolver) (auths : List RRset) (servers : List String),
      authorityScan sub (auths.map (fun rr => { rr with rest := f rr })) servers =
        authorityScan sub auths servers := by
  refine ⟨?_, ?_, ?_⟩
  · simp only [additionalAddrs, List.filterMap_map]
    rfl
  · simp only [nsAddrs, List.filterMap_map]
    rfl
  · intro sub auths
    induction auths with
    | nil => intro servers; rfl
    | cons rr more ih =>
      intro servers
      simp only [List.map_cons, authorityScan]
      split
      · exact ih servers
      · split
        · rfl
        · split
          · rfl
          · rfl
          · exact ih servers
          · exact ih _

/-! ## Claim C4 -/

theorem authorityScan_gather (sub : Resolver) :
    ∀ (auths : List RRset),
      (∀ rr ∈ auths, rr.first.rdtype ≠ rdatatype.SOA →
        ∃ n, from_text rr.first.text = some n ∧
          ∃ r, sub n rdatatype.A = PyResult.ret r) →
      ∀ servers, authorityScan sub auths servers =
        PyResult.ret (servers ++ gatherNS sub auths) := by
  intro auths
  induction auths with
  | nil => intro _ servers; simp [authorityScan, gatherNS]
  | cons rr more ih =>
    intro h servers
    by_cases hsoa : rr.first.rdtype = rdatatype.SOA
    · simp only [authorityScan, gatherNS, hsoa, if_pos, ite_true, List.nil_append]
      exact ih (fun r hr => h r (by simp [hr])) servers
    · obtain ⟨n, hft, r, hsub⟩ := h rr (by simp) hsoa
      simp only [authorityScan, gatherNS, hsoa, ite_false, hft, hsub]
      cases r with
      | none =>
        exact ih (fun r2 hr2 => h r2 (by simp [hr2])) servers
      | some x =>
        have hmore := ih (fun r2 hr2 => h r2 (by simp [hr2])) (servers ++ nsAddrs x)
        rw [List.append_assoc] at hmore
        exact hmore

/-- Claim C4 (amended): on a response with an empty answer section and
no additional-section first-record address, the loop appends, to the
remaining candidates, the addresses gathered by scanning the authority
section: for each authority rrset whose FIRST record is not SOA, a fresh
sub-resolution of that first record with type ADDRESS, contributing the
FIRST record of each ADDRESS-type answer rrset.  The gathered addresses
are appended after the remaining candidates, not a replacement. -/
theorem C4_authority_appends (net : Network) (sub : Resolver)
    (t : String) (q fuel : Nat) (s : String) (rest : List String) (last : Option Response)
    (resp : Response)
    (hnet : net t q s = some resp) (hans : resp.answer = [])
    (hadd : additionalAddrs resp = [])
    (hok : ∀ rr ∈ resp.authority, rr.first.rdtype ≠ rdatatype.SOA →
      ∃ n, from_text rr.first.text = some n ∧
        ∃ r, sub n rdatatype.A = PyResult.ret r) :
    lookupLoop net sub t q (fuel + 1) (s :: rest) last =
      lookupLoop net sub t q fuel (rest ++ gatherNS sub resp.authority) (some resp) := by
  simp only [lookupLoop, hnet, hans, List.isEmpty_nil, if_pos, hadd,
    authorityScan_gather sub resp.authority hok rest]

/-- Witness for the amended claim C4 at the concrete referral `ref4`. -/
theorem C4_witness :
    w4net "x." 1 "198.41.0.4" = some ref4 ∧ ref4.answer = [] ∧
    additionalAddrs ref4 = [] ∧
    lookupLoop w4net (fun t2 q2 => lookup w4net 3 t2 q2) "x." 1 3
        ("198.41.0.4" :: ["199.9.14.201"]) none =
      lookupLoop w4net (fun t2 q2 => lookup w4net 3 t2 q2) "x." 1 2
        (["199.9.14.201"] ++ gatherNS (fun t2 q2 => lookup w4net 3 t2 q2) ref4.authority)
        (some ref4) :=
  ⟨by decide, rfl, by decide,
   C4_authority_appends w4net (fun t2 q2 => lookup w4net 3 t2 q2) "x." 1 2 "198.41.0.4"
     ["199.9.14.201"] none ref4 (by decide) rfl (by decide)
     (by
       intro rr hrr _
       have h4 : rr = nsRR4 := by simpa [ref4] using hrr
       subst h4
       exact ⟨"ns.x.", by decide, some nsAns4, by decide⟩)⟩

/-- Counterexample to claim C4 as stated: the nameserver sub-resolution
returns an answer rrset holding the two addresses 7.7.7.1 and 7.7.7.2,
but the source appends only the first record of each answer rrset, so
7.7.7.2 never reaches the candidate list. -/
theorem C4_counterexample :
    lookup exNet4 3 "ns.x." 1 = PyResult.ret (some nsAns4) ∧
    specNSAddrs nsAns4 = ["7.7.7.1", "7.7.7.2"] ∧
    nsAddrs nsAns4 = ["7.7.7.1"] ∧
    authorityScan (fun t2 q2 => lookup exNet4 3 t2 q2) [nsRR4] [] =
      PyResult.ret ["7.7.7.1"] := by decide

/-! ## Claim C1 -/

theorem chaseRecords_ret (sub : Resolver) (q : Nat) :
    ∀ (rs : List Rdata) (acc : Option Response),
      (∀ tgt ∈ cnameTargets1 rs, ∃ r, sub tgt q = PyResult.ret r) →
      ∃ res, chaseRecords sub q rs acc = PyResult.ret res ∧
        ((cnameTargets1 rs = [] ∧ res = acc) ∨
         ∃ tl, (cnameTargets1 rs).getLast? = some tl ∧ sub tl q = PyResult.ret res) := by
  intro rs
  induction rs with
  | nil => intro acc _; exact ⟨acc, rfl, Or.inl ⟨rfl, rfl⟩⟩
  | cons r more ih =>
    intro acc h
    by_cases hc : r.rdtype = rdatatype.CNAME
    · have htargets : cnameTargets1 (r :: more) = r.target :: cnameTargets1 more := by
        simp [cnameTargets1, hc]
      obtain ⟨v, hv⟩ := h r.target (by rw [htargets]; simp)
      obtain ⟨res, hcr, hch⟩ := ih v (fun tgt htgt => h tgt (by rw [htargets]; simp [htgt]))
      refine ⟨res, ?_, ?_⟩
      · simp only [chaseRecords, hc, ite_true, hv]
        exact hcr
      · rw [htargets]
        rcases hch with ⟨hemp, rfl⟩ | ⟨tl, htl, hsub⟩
        · rw [hemp]
          exact Or.inr ⟨r.target, rfl, hv⟩
        · refine Or.inr ⟨tl, ?_, hsub⟩
          cases hmt : cnameTargets1 more with
          | nil => rw [hmt] at htl; simp at htl
          | cons b bs =>
            rw [hmt] at htl
            rw [List.getLast?_cons_cons]
            exact htl
    · have htargets : cnameTargets1 (r :: more) = cnameTargets1 more := by
        simp [cnameTargets1, hc]
      obtain ⟨res, hcr, hch⟩ := ih acc (fun tgt htgt => h tgt (by rw [htargets]; exact htgt))
      refine ⟨res, ?_, ?_⟩
      · simp only [chaseRecords, hc, ite_false]
        exact hcr
      · rw [htargets]
        exact hch

theorem chaseAnswers_ret (sub : Resolver) (q : Nat) :
    ∀ (anss : List RRset) (acc : Option Response),
      (∀ tgt ∈ cnameTargets anss, ∃ r, sub tgt q = PyResult.ret r) →
      ∃ res, chaseAnswers sub q anss acc = PyResult.ret res ∧
        ((cnameTargets anss = [] ∧ res = acc) ∨
         ∃ tl, (cnameTargets anss).getLast? = some tl ∧ sub tl q = PyResult.ret res) := by
  intro anss
  induction anss with
  | nil => intro acc _; exact ⟨acc, rfl, Or.inl ⟨rfl, rfl⟩⟩
  | cons a more ih =>
    intro acc h
    have hct : cnameTargets (a :: more) = cnameTargets1 a.toList ++ cnameTargets more := rfl
    obtain ⟨res1, hcr, hch1⟩ := chaseRecords_ret sub q a.toList acc
      (fun tgt htgt => h tgt (by rw [hct]; exact List.mem_append_left _ htgt))
    obtain ⟨res, hca, hch⟩ := ih res1
      (fun tgt htgt => h tgt (by rw [hct]; exact List.mem_append_right _ htgt))
    refine ⟨res, ?_, ?_⟩
    · simp only [chaseAnswers, hcr]
      exact hca
    · rw [hct]
      rcases hch with ⟨hemp2, rfl⟩ | ⟨tl, htl, hsub⟩
      · rw [hemp2, List.append_nil]
        rcases hch1 with ⟨hemp1, rfl⟩ | ⟨tl, htl, hsub⟩
        · exact Or.inl ⟨hemp1, rfl⟩
        · exact Or.inr ⟨tl, htl, hsub⟩
      · refine Or.inr ⟨tl, ?_, hsub⟩
        have hne : cnameTargets more ≠ [] := by
          intro hx
          rw [hx] at htl
          simp at htl
        rw [List.getLast?_append_of_ne_nil _ hne]
        exact htl

/-- Claim C1 (amended): on a response whose answer section contains
CNAME records, the loop launches one sub-resolution per CNAME record in
scan order (the hypothesis requires each of them to return), but only
the answers of the LAST launched sub-resolution are appended to the
original answer section before the response is returned: each
sub-resolution overwrites the previous chase result. -/
theorem C1_cname_chase_keeps_last (net : Network) (sub : Resolver)
    (t : String) (q fuel : Nat) (s : String) (rest : List String) (last : Option Response)
    (resp : Response) (subres : Option Response) (tl : String)
    (hnet : net t q s = some resp)
    (hsub : ∀ tgt ∈ cnameTargets resp.answer, ∃ r, sub tgt q = PyResult.ret r)
    (htl : (cnameTargets resp.answer).getLast? = some tl)
    (hlast : sub tl q = PyResult.ret subres) :
    lookupLoop net sub t q (fuel + 1) (s :: rest) last =
      PyResult.ret (some { resp with answer := resp.answer ++ optAnswer subres }) := by
  have hne : resp.answer ≠ [] := by
    intro hx
    rw [hx] at htl
    simp [cnameTargets] at htl
  have hie : resp.answer.isEmpty = false := by
    cases hx : resp.answer.isEmpty
    · rfl
    · exact absurd (List.isEmpty_iff.mp hx) hne
  obtain ⟨res, hca, hch⟩ := chaseAnswers_ret sub q resp.answer none hsub
  rcases hch with ⟨hemp, _⟩ | ⟨tl2, htl2, hsub2⟩
  · rw [hemp] at htl
    simp at htl
  · rw [htl2] at htl
    injection htl with htleq
    subst htleq
    rw [hlast] at hsub2
    injection hsub2 with hres
    subst hres
    simp only [lookupLoop, hnet, hie, Bool.false_eq_true, if_false, hca]
    cases subres with
    | some c => rfl
    | none => simp [optAnswer]

/-- Witness for the amended claim C1 at the concrete two-alias response
`respX`: the merge keeps only the chase result of the second alias. -/
theorem C1_witness :
    exNet1 "x." 1 "198.41.0.4" = some respX ∧
    (cnameTargets respX.answer).getLast? = some "c2." ∧
    lookup exNet1 4 "c2." 1 = PyResult.ret (some respC2) ∧
    lookupLoop exNet1 (fun t2 q2 => lookup exNet1 4 t2 q2) "x." 1 4 ["198.41.0.4"] none =
      PyResult.ret (some { respX with answer := respX.answer ++ optAnswer (some respC2) }) :=
  ⟨by decide, by decide, by decide,
   C1_cname_chase_keeps_last exNet1 (fun t2 q2 => lookup exNet1 4 t2 q2) "x." 1 3
     "198.41.0.4" [] none respX (some respC2) "c2." (by decide)
     (by
       intro tgt htgt
       have hts : cnameTargets respX.answer = ["c1.", "c2."] := by decide
       rw [hts] at htgt
       simp at htgt
       rcases htgt with rfl | rfl
       · exact ⟨some respC1, by decide⟩
       · exact ⟨some respC2, by decide⟩)
     (by decide) (by decide)⟩

/-- Counterexample to claim C1 as stated: the response `respX` holds two
CNAME records; both sub-resolutions are launched (the one for c1 returns
the answer rrset `rrC1`), yet the returned answer section contains only
the original records and the answers of the LAST sub-resolution — the
first sub-resolution contributes nothing. -/
theorem C1_counterexample :
    lookup exNet1 5 "x." 1 =
      PyResult.ret (some { answer := [rrX, rrC2], authority := [], additional := [] }) ∧
    lookup exNet1 4 "c1." 1 = PyResult.ret (some respC1) ∧
    respC1.answer = [rrC1] ∧
    rrC1 ∉ [rrX, rrC2] := by decide

/-! ## Claim C6 -/

theorem mem_aEntries (anss : List RRset) :
    ∀ e ∈ aEntries anss, ∃ rr ∈ anss, ∃ rd ∈ RRset.toList rr,
      rd.rdtype = 1 ∧ e = Entry.addr rr.name rd.text := by
  induction anss with
  | nil => intro e he; simp [aEntries] at he
  | cons a more ih =>
    intro e he
    rw [show aEntries (a :: more) =
        (a.toList.filterMap
          (fun r => if r.rdtype = 1 then some (Entry.addr a.name r.text) else none)) ++
          aEntries more from rfl] at he
    rcases List.mem_append.mp he with h1 | h2
    · obtain ⟨rd, hrd, hsome⟩ := List.mem_filterMap.mp h1
      by_cases h1t : rd.rdtype = 1
      · rw [if_pos h1t] at hsome
        injection hsome with hsome
        exact ⟨a, by simp, rd, hrd, h1t, hsome.symm⟩
      · rw [if_neg h1t] at hsome
        cases hsome
    · obtain ⟨rr, hrr, rd, hrd, hh⟩ := ih e h2
      exact ⟨rr, by simp [hrr], rd, hrd, hh⟩

theorem mem_aaaaEntries (anss : List RRset) :
    ∀ e ∈ aaaaEntries anss, ∃ rr ∈ anss, ∃ rd ∈ RRset.toList rr,
      rd.rdtype = 28 ∧ e = Entry.addr rr.name rd.text := by
  induction anss with
  | nil => intro e he; simp [aaaaEntries] at he
  | cons a more ih =>
    intro e he
    rw [show aaaaEntries (a :: more) =
        (a.toList.filterMap
          (fun r => if r.rdtype = 28 then some (Entry.addr a.name r.text) else none)) ++
          aaaaEntries more from rfl] at he
    rcases List.mem_append.mp he with h1 | h2
    · obtain ⟨rd, hrd, hsome⟩ := List.mem_filterMap.mp h1
      by_cases h1t : rd.rdtype = 28
      · rw [if_pos h1t] at hsome
        injection hsome with hsome
        exact ⟨a, by simp, rd, hrd, h1t, hsome.symm⟩
      · rw [if_neg h1t] at hsome
        cases hsome
    · obtain ⟨rr, hrr, rd, hrd, hh⟩ := ih e h2
      exact ⟨rr, by simp [hrr], rd, hrd, hh⟩

theorem mem_mxEntries (anss : List RRset) :
    ∀ e ∈ mxEntries anss, ∃ rr ∈ anss, ∃ rd ∈ RRset.toList rr,
      rd.rdtype = 15 ∧ e = Entry.mx rr.name rd.preference rd.exchange := by
  induction anss with
  | nil => intro e he; simp [mxEntries] at he
  | cons a more ih =>
    intro e he
    rw [show mxEntries (a :: more) =
        (a.toList.filterMap
          (fun r => if r.rdtype = 15 then some (Entry.mx a.name r.preference r.exchange) else none)) ++
          mxEntries more from rfl] at he
    rcases List.mem_append.mp he with h1 | h2
    · obtain ⟨rd, hrd, hsome⟩ := List.mem_filterMap.mp h1
      by_cases h1t : rd.rdtype = 15
      · rw [if_pos h1t] at hsome
        injection hsome with hsome
        exact ⟨a, by simp, rd, hrd, h1t, hsome.symm⟩
      · rw [if_neg h1t] at hsome
        cases hsome
    · obtain ⟨rr, hrr, rd, hrd, hh⟩ := ih e h2
      exact ⟨rr, by simp [hrr], rd, hrd, hh⟩

/-- Claim C6 (amended): `collect_results` projects the four lookup
results with a type filter for A (code 1), AAAA (code 28) and MX
(code 15) — each entry of those three lists arises from a record of the
matching type code — but the CNAME entry list takes EVERY record of the
CNAME lookup answer section with no type filter. -/
theorem C6_typed_projection (net : Network) (fuel : Nat) (name target : String)
    (r5 r1 r28 r15 : Response)
    (hft : from_text name = some target)
    (h5 : lookup net fuel target rdatatype.CNAME = PyResult.ret (some r5))
    (h1 : lookup net fuel target rdatatype.A = PyResult.ret (some r1))
    (h28 : lookup net fuel target rdatatype.AAAA = PyResult.ret (some r28))
    (h15 : lookup net fuel target rdatatype.MX = PyResult.ret (some r15)) :
    collect_results net fuel name =
      PyResult.ret
        [("CNAME", cnameEntries name r5.answer),
         ("A", aEntries r1.answer),
         ("AAAA", aaaaEntries r28.answer),
         ("MX", mxEntries r15.answer)] ∧
    (∀ e ∈ aEntries r1.answer, ∃ rr ∈ r1.answer, ∃ rd ∈ RRset.toList rr,
        rd.rdtype = 1 ∧ e = Entry.addr rr.name rd.text) ∧
    (∀ e ∈ aaaaEntries r28.answer, ∃ rr ∈ r28.answer, ∃ rd ∈ RRset.toList rr,
        rd.rdtype = 28 ∧ e = Entry.addr rr.name rd.text) ∧
    (∀ e ∈ mxEntries r15.answer, ∃ rr ∈ r15.answer, ∃ rd ∈ RRset.toList rr,
        rd.rdtype = 15 ∧ e = Entry.mx rr.name rd.preference rd.exchange) := by
  refine ⟨?_, mem_aEntries _, mem_aaaaEntries _, mem_mxEntries _⟩
  simp [collect_results, hft, h5, h1, h28, h15, getResp]

/-- Witness for the amended claim C6 at a concrete network. -/
theorem C6_witness :
    from_text "x" = some "x." ∧
    lookup exNet6 3 "x." rdatatype.CNAME = PyResult.ret (some resp65) ∧
    lookup exNet6 3 "x." rdatatype.A = PyResult.ret (some resp61) ∧
    lookup exNet6 3 "x." rdatatype.AAAA = PyResult.ret (some resp628) ∧
    lookup exNet6 3 "x." rdatatype.MX = PyResult.ret (some resp615) ∧
    (collect_results exNet6 3 "x" =
       PyResult.ret
         [("CNAME", cnameEntries "x" resp65.answer),
          ("A", aEntries resp61.answer),
          ("AAAA", aaaaEntries resp628.answer),
          ("MX", mxEntries resp615.answer)] ∧
     (∀ e ∈ aEntries resp61.answer, ∃ rr ∈ resp61.answer, ∃ rd ∈ RRset.toList rr,
         rd.rdtype = 1 ∧ e = Entry.addr rr.name rd.text) ∧
     (∀ e ∈ aaaaEntries resp628.answer, ∃ rr ∈ resp628.answer, ∃ rd ∈ RRset.toList rr,
         rd.rdtype = 28 ∧ e = Entry.addr rr.name rd.text) ∧
     (∀ e ∈ mxEntries resp615.answer, ∃ rr ∈ resp615.answer, ∃ rd ∈ RRset.toList rr,
         rd.rdtype = 15 ∧ e = Entry.mx rr.name rd.preference rd.exchange)) :=
  ⟨by decide, by decide, by decide, by decide, by decide,
   C6_typed_projection exNet6 3 "x" "x." resp65 resp61 resp628 resp615
     (by decide) (by decide) (by decide) (by decide) (by decide)⟩

/-- Counterexample to claim C6 as stated: the CNAME lookup answer holds
only a record of type code 1, no CNAME record at all, yet its text is
projected into the CNAME entry list — the CNAME branch of the source
applies no type filter. -/
theorem C6_counterexample :
    collect_results exNet6 3 "x" =
      PyResult.ret
        [("CNAME", [Entry.cname "9.9.9.9" "x"]),
         ("A", [Entry.addr "x." "1.2.3.4"]),
         ("AAAA", [Entry.addr "x." "::1"]),
         ("MX", [Entry.mx "x." 10 "mail.x."])] ∧
    lookup exNet6 3 "x." rdatatype.CNAME = PyResult.ret (some resp65) ∧
    (∀ rr ∈ resp65.answer, ∀ rd ∈ RRset.toList rr, rd.rdtype ≠ rdatatype.CNAME) := by
  decide
